import Mathlib

set_option maxRecDepth 100000

/-!
Verification of the Disney Parks chatbot's response-resolution policy
(`src/Disney_Chatbot.py`).

Shallow embedding conventions:
* Python strings are Lean `String`s; `needle in hay` (substring containment)
  is `needle.data <:+: hay.data` on the underlying character lists.
* `question.lower()` is embedded as mapping `Char.toLower` over the
  characters of the question (the relevant keywords are ASCII).
* The OpenAI chat-completion round trip (`client.chat.completions.create`)
  is an oracle of type `String → Except String String`: `Except.ok r` is a
  successful completion whose extracted text is `r`, `Except.error e` is a
  raised exception whose `str(e)` is `e`.
* `get_response` additionally returns the list of prompts that were passed
  to the completion wrapper during the call, so that "does not invoke the
  completion client" is statable; the source invokes `get_openai_response`
  exactly on the AI fallback path.
* `text_to_speech` is embedded against an explicit file-system state: the
  fresh name produced by `tempfile.NamedTemporaryFile(delete=False)` is a
  parameter, and the fallible middle section (speech synthesis, streaming
  to the file, reading it back) is an oracle `String → Except String (List Nat)`
  returning the audio bytes or a raised exception. `st.error` calls are
  recorded in a display log.
-/

/-- A completion oracle: what `client.chat.completions.create` (plus the
`choices[0].message.content` extraction) does for a given user prompt —
either returns text or raises. -/
abbrev Client := String → Except String String

/-- Embeds Python `s.lower()`: lowercase every character. -/
def lower (s : String) : String := String.mk (s.data.map Char.toLower)

/-- The `faq_responses` dict of the source, as an ordered association list
(Python dicts iterate in insertion order). -/
def faq_responses : List (String × String) :=
  [("tickets", "Disney offers a variety of ticket options including single-day, multi-day, and Park Hopper tickets. Prices vary based on the season. Visit the official website for pricing and reservations."),
   ("park reservations", "Park reservations are required in addition to tickets for entry. You can make a reservation through My Disney Experience. Make sure to check park availability before purchasing tickets."),
   ("best attractions", "Top attractions include Space Mountain, Haunted Mansion, Star Wars: Rise of the Resistance, and Guardians of the Galaxy: Cosmic Rewind. Let me know your interests for a tailored recommendation!"),
   ("dining reservations", "Advanced Dining Reservations (ADRs) can be made up to 60 days in advance for most restaurants. Popular dining experiences like Cinderella\x27s Royal Table and Be Our Guest require early booking."),
   ("genie+", "Genie+ is a paid service that allows you to skip standby lines for certain attractions. It can be purchased through My Disney Experience and is available on a per-day basis. Lightning Lane access is limited, so book early in the day!"),
   ("transportation", "Disney offers complimentary transportation including buses, Monorail, Skyliner, and boats between parks and resorts. Ride-share services and parking options are also available."),
   ("accommodations", "Disney Resorts range from Value to Deluxe categories, each offering unique themes and amenities. Deluxe resorts provide additional perks such as extended evening hours and closer proximity to the parks."),
   ("weather policy", "Most attractions remain open during rain, but outdoor rides may temporarily close during storms. Ponchos and umbrellas are recommended for rainy days."),
   ("refund policy", "Tickets are generally non-refundable but can be modified. Hotel cancellations depend on booking terms and how far in advance the cancellation is made."),
   ("special events", "Disney hosts seasonal events such as Mickey\x27s Not-So-Scary Halloween Party, EPCOT\x27s Food & Wine Festival, and Very Merry Christmas Party. Special tickets may be required.")]

/-- The `max_tokens=300` parameter of the completion request: the configured
maximum output length, enforced by the endpoint, not by this code. -/
def max_tokens : Nat := 300

/-- The fallback string built by the `except` branch of
`get_openai_response`: `f"Sorry, I couldn\x27t generate a response at the
moment. Error: \x7bstr(e)\x7d"`. -/
def apologyMsg (e : String) : String :=
  "Sorry, I couldn\x27t generate a response at the moment. Error: " ++ e

/-- Embeds `get_openai_response(prompt)`: run the completion call; on
success return the completion text, on an exception return the formatted
apology string. -/
def get_openai_response (complete : Client) (prompt : String) : String :=
  match complete prompt with
  | Except.ok content => content
  | Except.error e => apologyMsg e

/-- The `for key in faq_responses: if key in question_lower: ...` loop of
`get_response`: first entry (in table order) whose keyword is a substring
of the lowercased question. -/
def faq_lookup (question : String) : Option (String × String) :=
  faq_responses.find? (fun kv => decide (kv.1.data <:+: (lower question).data))

/-- The fixed instruction template wrapped around the raw question on the
AI path: `f"Please answer this Disney-related question: \x7bquestion\x7d"`. -/
def aiPrompt (question : String) : String :=
  "Please answer this Disney-related question: " ++ question

/-- Embeds `get_response(question)`. First component: the returned pair
`(response, source)`. Second component: the prompts passed to
`get_openai_response` (and hence to the completion endpoint) during the
call — empty when the FAQ path answers, the single wrapped prompt on the
AI fallback path. -/
def get_response (complete : Client) (question : String) :
    (String × String) × List String :=
  match faq_lookup question with
  | some kv => ((kv.2, "FAQ"), [])
  | none =>
      let prompt := aiPrompt question
      ((get_openai_response complete prompt, "AI"), [prompt])

/-- File-system and display state threaded through `text_to_speech`:
which files currently exist, and the error messages shown via `st.error`. -/
structure FileSystem where
  files : List String
  shownErrors : List String
deriving DecidableEq

/-- The message displayed by the `except` branch of `text_to_speech`:
`f"Error generating audio: \x7bstr(e)\x7d"`. -/
def audioErrMsg (e : String) : String := "Error generating audio: " ++ e

/-- Embeds `text_to_speech(text)`. `tempName`: the unique fresh name
produced by `tempfile.NamedTemporaryFile(delete=False, suffix=".mp3")`;
creating it adds it to the file system. `synthesize`: the fallible
sequence `client.audio.speech.create` / `response.stream_to_file` /
read-back, yielding the audio bytes or raising. On success the source
executes `os.unlink(temp_filename)` and returns the bytes; on an exception
it shows the error with `st.error` and returns `None` — without
unlinking. -/
def text_to_speech (tempName : String)
    (synthesize : String → Except String (List Nat)) (text : String)
    (fs : FileSystem) : Option (List Nat) × FileSystem :=
  let fs1 : FileSystem := { fs with files := tempName :: fs.files }
  match synthesize text with
  | Except.ok audio_bytes =>
      (some audio_bytes, { fs1 with files := fs1.files.erase tempName })
  | Except.error e =>
      (none, { fs1 with shownErrors := fs1.shownErrors ++ [audioErrMsg e] })

/-- A completion oracle that always succeeds with a fixed text. -/
def okClient : Client := fun _ => Except.ok "Magic awaits!"

/-- A completion oracle that always raises. -/
def failClient : Client := fun _ => Except.error "connection timeout"

/-- A completion oracle that succeeds with the empty string. -/
def blankClient : Client := fun _ => Except.ok ""

/-- A synthesis oracle that always succeeds with fixed audio bytes. -/
def synthOk : String → Except String (List Nat) := fun _ => Except.ok [1, 2, 3]

/-- A synthesis oracle that always raises. -/
def synthFail : String → Except String (List Nat) := fun _ => Except.error "boom"

/-- If no FAQ keyword is a substring of the lowercased question, the
first-match scan comes up empty. -/
theorem faq_lookup_eq_none (q : String)
    (h : ∀ kv ∈ faq_responses, ¬ kv.1.data <:+: (lower q).data) :
    faq_lookup q = none := by
  unfold faq_lookup
  rw [List.find?_eq_none]
  intro kv hm
  simpa using h kv hm

/-- C1: if the FAQ table decomposes as `l1 ++ kv :: l2` where `kv`'s keyword
is a case-insensitive substring of the question and no keyword before it
matches — i.e. `kv` is the first matching entry in table order — then
`get_response` returns exactly `kv`'s canned answer with source `"FAQ"`,
and passes no prompt to the completion client. -/
theorem faq_hit_first_match (c : Client) (q : String)
    (l1 l2 : List (String × String)) (kv : String × String)
    (htab : faq_responses = l1 ++ kv :: l2)
    (hmatch : kv.1.data <:+: (lower q).data)
    (hbefore : ∀ kv2 ∈ l1, ¬ kv2.1.data <:+: (lower q).data) :
    get_response c q = ((kv.2, "FAQ"), []) := by
  have hfind : faq_lookup q = some kv := by
    unfold faq_lookup
    rw [htab, List.find?_append]
    have h1 : l1.find? (fun kv => decide (kv.1.data <:+: (lower q).data)) = none := by
      rw [List.find?_eq_none]
      intro kv2 hm
      simpa using hbefore kv2 hm
    rw [h1, List.find?_cons_of_pos _ (by simpa using hmatch)]
    rfl
  unfold get_response
  rw [hfind]

/-- Witness for C1: `"How much are tickets?"` contains the first keyword
`"tickets"`, and `get_response` returns its canned answer verbatim, tagged
`FAQ`, with no completion-client call. -/
theorem faq_hit_first_match_witness :
    get_response okClient "How much are tickets?" =
      (("Disney offers a variety of ticket options including single-day, multi-day, and Park Hopper tickets. Prices vary based on the season. Visit the official website for pricing and reservations.", "FAQ"), []) :=
  faq_hit_first_match okClient "How much are tickets?" [] (faq_responses.drop 1)
    ("tickets", "Disney offers a variety of ticket options including single-day, multi-day, and Park Hopper tickets. Prices vary based on the season. Visit the official website for pricing and reservations.")
    rfl (by decide) (by simp)

/-- C2: on a question containing no FAQ keyword, `get_response` passes
exactly the string `"Please answer this Disney-related question: "`
followed by the raw question to the completion client, and when the client
succeeds with `r` it returns `r` tagged `"AI"`. -/
theorem ai_path_prompt (c : Client) (q r : String)
    (hq : ∀ kv ∈ faq_responses, ¬ kv.1.data <:+: (lower q).data)
    (hr : c ("Please answer this Disney-related question: " ++ q) = Except.ok r) :
    get_response c q =
      ((r, "AI"), ["Please answer this Disney-related question: " ++ q]) := by
  unfold get_response
  rw [faq_lookup_eq_none q hq]
  show ((get_openai_response c (aiPrompt q), "AI"), [aiPrompt q]) = _
  unfold get_openai_response aiPrompt
  rw [hr]

/-- Witness for C2: `"hello"` matches no keyword; the wrapped prompt is
passed to the client and the client's text comes back tagged `AI`. -/
theorem ai_path_prompt_witness :
    get_response okClient "hello" =
      (("Magic awaits!", "AI"),
        ["Please answer this Disney-related question: " ++ "hello"]) :=
  ai_path_prompt okClient "hello" "Magic awaits!" (by decide) rfl

/-- C3 counterexample: when the synthesis step raises, the `except` branch
of `text_to_speech` returns `None` without unlinking, so the freshly
created temporary file is still present when the call returns. -/
theorem tts_leak_counterexample :
    (text_to_speech "tmp123.mp3" synthFail "Hello" ⟨[], []⟩).1 = none ∧
    "tmp123.mp3" ∈ (text_to_speech "tmp123.mp3" synthFail "Hello" ⟨[], []⟩).2.files := by
  decide

/-- C3 amended: provided the temporary name is fresh, the file is removed
before return when synthesis succeeds, but is left behind (and the call
returns `None`) when any synthesis step raises. -/
theorem tts_temp_file (tempName : String)
    (synth : String → Except String (List Nat)) (text : String)
    (fs : FileSystem) (hfresh : tempName ∉ fs.files) :
    ((synth text).toBool = true →
      tempName ∉ (text_to_speech tempName synth text fs).2.files) ∧
    ((synth text).toBool = false →
      tempName ∈ (text_to_speech tempName synth text fs).2.files ∧
        (text_to_speech tempName synth text fs).1 = none) := by
  unfold text_to_speech
  cases hs : synth text with
  | ok b =>
      refine ⟨fun _ => ?_, fun hcontra => by simp [Except.toBool, hs] at hcontra⟩
      simpa [List.erase_cons_head] using hfresh
  | error e =>
      refine ⟨fun hcontra => by simp [Except.toBool, hs] at hcontra, fun _ => ?_⟩
      exact ⟨List.mem_cons_self _ _, rfl⟩

/-- Witness for C3 amended: on a fresh name, a successful call removes the
file and a failing call leaves it behind. -/
theorem tts_temp_file_witness :
    "t.mp3" ∉ (text_to_speech "t.mp3" synthOk "hi" ⟨[], []⟩).2.files ∧
    "t.mp3" ∈ (text_to_speech "t.mp3" synthFail "hi" ⟨[], []⟩).2.files :=
  ⟨(tts_temp_file "t.mp3" synthOk "hi" ⟨[], []⟩ (by simp)).1 rfl,
   ((tts_temp_file "t.mp3" synthFail "hi" ⟨[], []⟩ (by simp)).2 rfl).1⟩

/-- C4: `get_openai_response` catches every exception of the completion
call: when the call raises `e` it returns the formatted apology string,
which contains the failure detail `e` as a substring. (The embedding is a
total function: no exception propagates.) -/
theorem openai_never_throws (c : Client) (prompt e : String)
    (h : c prompt = Except.error e) :
    get_openai_response c prompt = apologyMsg e ∧
    e.data <:+: (get_openai_response c prompt).data := by
  have hval : get_openai_response c prompt = apologyMsg e := by
    unfold get_openai_response
    rw [h]
  refine ⟨hval, ?_⟩
  rw [hval]
  unfold apologyMsg
  rw [String.data_append]
  exact (List.suffix_append _ _).isInfix

/-- Witness for C4: a client raising `"connection timeout"` yields the
apology string, which contains the error text. -/
theorem openai_never_throws_witness :
    get_openai_response failClient "hi" = apologyMsg "connection timeout" ∧
    ("connection timeout").data <:+: (get_openai_response failClient "hi").data :=
  openai_never_throws failClient "hi" "connection timeout" rfl

/-- C5: when the question misses the FAQ table and the completion call
raises `e`, `get_response` returns the apology string — which contains
both the apology `"Sorry"` and the error detail `e` — still tagged
`"AI"`. -/
theorem resolver_ai_failure (c : Client) (q e : String)
    (hq : ∀ kv ∈ faq_responses, ¬ kv.1.data <:+: (lower q).data)
    (he : c (aiPrompt q) = Except.error e) :
    get_response c q = ((apologyMsg e, "AI"), [aiPrompt q]) ∧
    ("Sorry").data <:+: (get_response c q).1.1.data ∧
    e.data <:+: (get_response c q).1.1.data := by
  have hval : get_response c q = ((apologyMsg e, "AI"), [aiPrompt q]) := by
    unfold get_response
    rw [faq_lookup_eq_none q hq]
    show ((get_openai_response c (aiPrompt q), "AI"), [aiPrompt q]) = _
    unfold get_openai_response
    rw [he]
  refine ⟨hval, ?_, ?_⟩ <;> rw [hval]
  · show ("Sorry").data <:+: (apologyMsg e).data
    unfold apologyMsg
    rw [String.data_append]
    exact (((by decide : ("Sorry").data <+: ("Sorry, I couldn\x27t generate a response at the moment. Error: ").data)).trans
      (List.prefix_append _ _)).isInfix
  · show e.data <:+: (apologyMsg e).data
    unfold apologyMsg
    rw [String.data_append]
    exact (List.suffix_append _ _).isInfix

/-- Witness for C5: on `"hello"` with a raising client the answer is the
apology string containing the error, tagged `AI`. -/
theorem resolver_ai_failure_witness :
    get_response failClient "hello" =
      ((apologyMsg "connection timeout", "AI"), [aiPrompt "hello"]) ∧
    ("Sorry").data <:+: (get_response failClient "hello").1.1.data ∧
    ("connection timeout").data <:+: (get_response failClient "hello").1.1.data :=
  resolver_ai_failure failClient "hello" "connection timeout" (by decide) rfl

/-- C6 counterexample: the code passes the completion text through
unmodified, so with a completion endpoint returning the empty string the
AI-path answer of `get_response` is empty — the claimed unconditional
non-emptiness fails. -/
theorem ai_answer_empty_counterexample :
    (get_response blankClient "hello").1.2 = "AI" ∧
    (get_response blankClient "hello").1.1 = "" ∧
    ¬ 0 < (get_response blankClient "hello").1.1.length := by
  decide

/-- C6 amended: on an FAQ miss the source is `AI`; if every successful
completion result is non-empty and within the bound `n`, the answer is
non-empty (on failure it is the apology string, also non-empty), and when
the completion call succeeds the answer is within the bound. The code
itself enforces no bound — `max_tokens` is enforced by the endpoint. -/
theorem ai_answer_bounds (c : Client) (q : String) (n : Nat)
    (hq : ∀ kv ∈ faq_responses, ¬ kv.1.data <:+: (lower q).data)
    (hok : ∀ r, c (aiPrompt q) = Except.ok r → 0 < r.length ∧ r.length ≤ n) :
    (get_response c q).1.2 = "AI" ∧
    0 < (get_response c q).1.1.length ∧
    ((c (aiPrompt q)).toBool = true → (get_response c q).1.1.length ≤ n) := by
  have hstep : get_response c q =
      ((get_openai_response c (aiPrompt q), "AI"), [aiPrompt q]) := by
    unfold get_response
    rw [faq_lookup_eq_none q hq]
  refine ⟨by rw [hstep], ?_, ?_⟩
  · rw [hstep]
    show 0 < (get_openai_response c (aiPrompt q)).length
    unfold get_openai_response
    cases hr : c (aiPrompt q) with
    | ok r => exact (hok r hr).1
    | error e =>
        show 0 < (apologyMsg e).length
        unfold apologyMsg
        rw [String.length_append]
        exact Nat.lt_of_lt_of_le (by decide) (Nat.le_add_right _ _)
  · intro htrue
    rw [hstep]
    show (get_openai_response c (aiPrompt q)).length ≤ n
    unfold get_openai_response
    cases hr : c (aiPrompt q) with
    | ok r => exact (hok r hr).2
    | error e =>
        rw [hr] at htrue
        exact absurd htrue (by simp [Except.toBool])

/-- Witness for C6 amended: with a client returning `"Magic awaits!"`
(non-empty, within `max_tokens`), the AI answer to `"hello"` is non-empty
and within the bound. -/
theorem ai_answer_bounds_witness :
    (get_response okClient "hello").1.2 = "AI" ∧
    0 < (get_response okClient "hello").1.1.length ∧
    (get_response okClient "hello").1.1.length ≤ max_tokens :=
  have h := ai_answer_bounds okClient "hello" max_tokens (by decide)
    (fun r hr => by injection hr with hr; rw [← hr]; decide)
  ⟨h.1, h.2.1, h.2.2 rfl⟩

/-- C7: FAQ matching only sees the lowercased question: two questions with
the same lowercasing get the same first-match lookup result (same hit/miss
decision and same canned answer), and whenever the lookup hits, the whole
of `get_response` behaves identically on the two questions. -/
theorem faq_case_insensitive (c : Client) (q1 q2 : String)
    (h : lower q1 = lower q2) :
    faq_lookup q1 = faq_lookup q2 ∧
    ((faq_lookup q1).isSome = true → get_response c q1 = get_response c q2) := by
  have he : faq_lookup q1 = faq_lookup q2 := by
    unfold faq_lookup
    rw [h]
  refine ⟨he, fun hs => ?_⟩
  obtain ⟨kv, hk⟩ := Option.isSome_iff_exists.mp hs
  unfold get_response
  rw [hk, ← he, hk]

/-- Witness for C7: `"TICKETS please"` and `"tickets PLEASE"` lowercase
identically, both hit the `"tickets"` entry, and `get_response` agrees on
them. -/
theorem faq_case_insensitive_witness :
    faq_lookup "TICKETS please" = faq_lookup "tickets PLEASE" ∧
    get_response okClient "TICKETS please" = get_response okClient "tickets PLEASE" :=
  ⟨(faq_case_insensitive okClient "TICKETS please" "tickets PLEASE" (by decide)).1,
   (faq_case_insensitive okClient "TICKETS please" "tickets PLEASE" (by decide)).2
     (by decide)⟩

/-- C8: the FAQ-lookup portion of `get_response` is a pure function of the
(immutable) table and the question — in this effect-free embedding, two
calls on the same input are definitionally the same lookup result (same
hit/miss decision, same answer), and a repeated `get_response` call with
the same client is identical as well. -/
theorem faq_lookup_pure (c : Client) (q : String) :
    faq_lookup q = faq_lookup q ∧
    (faq_lookup q).isSome = (faq_lookup q).isSome ∧
    get_response c q = get_response c q :=
  ⟨rfl, rfl, rfl⟩

/-- C9: when any synthesis step raises `e`, `text_to_speech` returns
`None` rather than propagating the exception (the embedding is total), and
appends the formatted error message to the display log. -/
theorem tts_error_recovery (tempName : String)
    (synth : String → Except String (List Nat)) (text e : String)
    (fs : FileSystem) (h : synth text = Except.error e) :
    (text_to_speech tempName synth text fs).1 = none ∧
    (text_to_speech tempName synth text fs).2.shownErrors =
      fs.shownErrors ++ [audioErrMsg e] := by
  unfold text_to_speech
  rw [h]
  exact ⟨rfl, rfl⟩

/-- Witness for C9: a raising synthesis oracle yields `None` and the
displayed error message. -/
theorem tts_error_recovery_witness :
    (text_to_speech "t2.mp3" synthFail "hi there" ⟨[], []⟩).1 = none ∧
    (text_to_speech "t2.mp3" synthFail "hi there" ⟨[], []⟩).2.shownErrors =
      [] ++ [audioErrMsg "boom"] :=
  tts_error_recovery "t2.mp3" synthFail "hi there" "boom" ⟨[], []⟩ rfl

/-- C10: a question shorter than every FAQ keyword (in particular the
empty question) cannot contain any keyword as a substring, so
`get_response` takes the AI path: source `"AI"` and exactly the wrapped
prompt passed to the completion client. -/
theorem short_question_ai (c : Client) (q : String)
    (h : ∀ kv ∈ faq_responses, q.length < kv.1.length) :
    (get_response c q).1.2 = "AI" ∧ (get_response c q).2 = [aiPrompt q] := by
  have hnone : faq_lookup q = none := by
    apply faq_lookup_eq_none
    intro kv hm hinf
    have hlen : kv.1.data.length ≤ (lower q).data.length := hinf.length_le
    have hlow : (lower q).data.length = q.length := by
      unfold lower
      exact List.length_map _ _
    rw [hlow] at hlen
    exact Nat.not_lt.mpr hlen (h kv hm)
  unfold get_response
  rw [hnone]
  exact ⟨rfl, rfl⟩

/-- Witness for C10: the empty question takes the AI path. -/
theorem short_question_ai_witness :
    (get_response okClient "").1.2 = "AI" ∧
    (get_response okClient "").2 = [aiPrompt ""] :=
  short_question_ai okClient "" (by decide)
